import Mathlib

/-!
Shallow embedding of the FitRealm progression logic.

The numeric domain of the source is JavaScript numbers, but every value that
reaches the progression arithmetic is a non-negative integer far below 2^53,
so we model them as `Nat`.  `Math.floor(x / 1000)` on such values is `Nat`
division, and `Math.floor(x * 1.2)` equals `x * 12 / 10` in `Nat` arithmetic
for the magnitudes that occur (the double rounding error of `x * 1.2` is far
below half an ulp of the nearest integer for x ≤ 2^40).
-/

namespace FitRealm

/-- The four quest / workout categories (`QUEST_TYPES` in QuestScreen.tsx,
the stat keys of `Character`). -/
inductive QuestType
  | strength
  | speed
  | magic
  | willpower
deriving DecidableEq, Repr

/-- The string the source uses for each category. -/
def QuestType.name : QuestType → String
  | .strength => "strength"
  | .speed => "speed"
  | .magic => "magic"
  | .willpower => "willpower"

/-- Character record (`characters` table; interfaces in QuestScreen.tsx,
CharacterScreen.tsx and src/types/characterTypes.tsx).  `className` models the
`class` column; it is optional in CharacterScreen's interface and absent from
part_000's interface, so we carry it as `Option String`. -/
structure Character where
  user_id : String
  name : String
  className : Option String
  level : Nat
  xp : Nat
  strength : Nat
  speed : Nat
  magic : Nat
  willpower : Nat
deriving DecidableEq, Repr

/-- Models `character[type]` — dynamic stat read used by both screens. -/
def Character.stat (c : Character) : QuestType → Nat
  | .strength => c.strength
  | .speed => c.speed
  | .magic => c.magic
  | .willpower => c.willpower

/-- Models `updates[type] = character[type] + 1` — the dynamic stat increment. -/
def Character.addStat (c : Character) : QuestType → Character
  | .strength => { c with strength := c.strength + 1 }
  | .speed => { c with speed := c.speed + 1 }
  | .magic => { c with magic := c.magic + 1 }
  | .willpower => { c with willpower := c.willpower + 1 }

/-- JavaScript `s || dflt` on an optional string (`undefined`, `null` and the
empty string are falsy). -/
def jsOrString (s : Option String) (dflt : String) : String :=
  match s with
  | none => dflt
  | some v => if v = "" then dflt else v

/-- One entry of `CHARACTER_CLASSES` (CharacterScreen.tsx); the cosmetic
`icon`/`color` fields are omitted. -/
structure CharacterClass where
  name : String
  statBonus : QuestType
deriving DecidableEq, Repr

/-- Table `CHARACTER_CLASSES` from CharacterScreen.tsx. -/
def CHARACTER_CLASSES : List CharacterClass :=
  [⟨"Warrior", .strength⟩, ⟨"Rogue", .speed⟩, ⟨"Mage", .magic⟩, ⟨"Monk", .willpower⟩]

/-- Embeds `getClassSpecialty` from QuestScreen.tsx: a `switch` on the class name
whose `default` branch yields `'strength'` (also hit when `class` is unset). -/
def getClassSpecialty (className : Option String) : QuestType :=
  match className with
  | some "Warrior" => .strength
  | some "Rogue" => .speed
  | some "Mage" => .magic
  | some "Monk" => .willpower
  | _ => .strength

namespace CharacterScreen

/-- The class name `logWorkout` resolves:
`character.class || CHARACTER_CLASSES[selectedClass].name`. -/
def resolvedClassName (c : Character) (selectedClass : Fin 4) : String :=
  jsOrString c.className
    (CHARACTER_CLASSES.get ⟨selectedClass.val, selectedClass.isLt⟩).name

/-- Models `CHARACTER_CLASSES.find(cl => cl.name === characterClass)?.statBonus`. -/
def classStatBonus (c : Character) (selectedClass : Fin 4) : Option QuestType :=
  (CHARACTER_CLASSES.find? (fun cc => cc.name == resolvedClassName c selectedClass)).map
    CharacterClass.statBonus

/-- Embeds `logWorkout` from src/screens/CharacterScreen.tsx (lines 151–176): the
XP gain is the literal `120` with a class-specialty bonus, `100` otherwise;
the level is recomputed as `Math.floor(newXP / 1000) + 1`; the stat matching
the workout type is incremented unconditionally. -/
def logWorkout (c : Character) (selectedClass : Fin 4) (type : QuestType) : Character :=
  let isClassSpecialty := classStatBonus c selectedClass = some type
  let xpGain := if isClassSpecialty then 120 else 100
  let newXP := c.xp + xpGain
  let newLevel := newXP / 1000 + 1
  ({ c with xp := newXP, level := newLevel }).addStat type

end CharacterScreen

namespace UnnamedCharacterScreen

/-- Embeds `logWorkout` from src/unnamed/part_000 (lines 100–115): a flat `+100` XP
(no class bonus exists on this screen), level recomputed as
`Math.floor(newXP / 1000) + 1`, and the stat incremented unconditionally. -/
def logWorkout (c : Character) (type : QuestType) : Character :=
  let newXP := c.xp + 100
  let newLevel := newXP / 1000 + 1
  ({ c with xp := newXP, level := newLevel }).addStat type

end UnnamedCharacterScreen

/-- Quest record (interface in QuestScreen.tsx / characterTypes.tsx);
`user_id` / `created_at` are cosmetic and omitted. -/
structure Quest where
  id : String
  title : String
  description : String
  type : QuestType
  difficulty : String
  xpReward : Nat
  completed : Bool
  accepted : Bool
deriving DecidableEq, Repr

/-- The QuestScreen component state relevant to quest completion: `quests`
holds the non-completed quests (the fetch splits on `q.completed`, lines
160–161), `completedQuests` the completed ones, and `character` the loaded
character (or `none`). -/
structure QuestScreenState where
  quests : List Quest
  completedQuests : List Quest
  character : Option Character
deriving DecidableEq, Repr

namespace QuestScreen

/-- Embeds `completeQuest` from src/screens/QuestScreen.tsx (lines 289–390), as the
state transition it performs when every remote write succeeds:
* bail out if there is no character (`if (!character) return`);
* bail out if the quest id is not in the active list (`if (!quest) return`);
* `xpGain = isClassSpecialty ? Math.floor(quest.xpReward * 1.2) : quest.xpReward`;
* `newLevel = Math.floor(newXP / 1000) + 1`; the stat matching `quest.type`
  is incremented only when `newLevel > character.level`;
* the quest is removed from the active list and appended, with
  `completed: true`, to the completed list. -/
def completeQuest (s : QuestScreenState) (questId : String) : QuestScreenState :=
  match s.character with
  | none => s
  | some character =>
    match s.quests.find? (fun q => q.id == questId) with
    | none => s
    | some quest =>
      let isClassSpecialty := quest.type = getClassSpecialty character.className
      let xpGain := if isClassSpecialty then quest.xpReward * 12 / 10 else quest.xpReward
      let newXP := character.xp + xpGain
      let newLevel := newXP / 1000 + 1
      let didLevelUp := newLevel > character.level
      let c1 := { character with xp := newXP, level := newLevel }
      let c2 := if didLevelUp then c1.addStat quest.type else c1
      { quests := s.quests.filter (fun q => !(q.id == questId)),
        completedQuests := s.completedQuests ++ [{ quest with completed := true }],
        character := some c2 }

end QuestScreen

/-- Guild event status strings used by src/unnamed/part_002:
`'upcoming' | 'active' | 'completed'`. -/
inductive EventStatus
  | upcoming
  | active
  | completed
deriving DecidableEq, Repr

/-- Guild event record (`guild_events` table), restricted to the fields the
join / complete flows read; `xp_reward` may be null in the database, hence
`Option Nat`; the cosmetic fields (title, dates, `completed_at` timestamp)
are omitted. -/
structure GuildEvent where
  id : String
  status : EventStatus
  participants_count : Nat
  xp_reward : Option Nat
deriving DecidableEq, Repr

/-- Guild record (`guilds` table), restricted to the progression fields. -/
structure Guild where
  xp : Nat
  level : Nat
deriving DecidableEq, Repr

/-- The part_002 screen state relevant to guild events. -/
structure GuildEventsState where
  guild : Guild
  events : List GuildEvent
deriving DecidableEq, Repr

namespace GuildEvents

/-- JavaScript `eventToComplete.xp_reward || 100` — `null`, `undefined` and
`0` are falsy, so all of them yield the default `100`. -/
def eventXpGain (xp_reward : Option Nat) : Nat :=
  match xp_reward with
  | none => 100
  | some n => if n = 0 then 100 else n

/-- Embeds `joinEvent` from src/unnamed/part_002 (lines 365–456), as the state
transition it performs when every remote access succeeds:
* the event is looked up (`events.find(ev => ev.id === eventId)`; a miss
  throws, is caught, and leaves the state unchanged);
* `participants_count` is incremented;
* `status` becomes `'active'` when it was `'upcoming'`, else is unchanged;
* every list entry with the event id is replaced by the updated event. -/
def joinEvent (s : GuildEventsState) (eventId : String) : GuildEventsState :=
  match s.events.find? (fun e => e.id == eventId) with
  | none => s
  | some ev =>
    let newCount := ev.participants_count + 1
    let newStatus := if ev.status = .upcoming then EventStatus.active else ev.status
    let updatedEvent := { ev with participants_count := newCount, status := newStatus }
    { s with events := s.events.map (fun e => if e.id == eventId then updatedEvent else e) }

/-- Embeds `completeEvent` from src/unnamed/part_002 (lines 458–516), as the state
transition it performs when every remote write succeeds:
* the event is looked up (a miss throws, is caught, and leaves the state
  unchanged);
* each matching list entry gets `status: 'completed'`;
* the guild gains `eventToComplete.xp_reward || 100` XP — note that the
  function reads and writes only `guilds.xp`; no `level` field is touched
  and no member character is touched.  There is no guard on the event's
  current status. -/
def completeEvent (s : GuildEventsState) (eventId : String) : GuildEventsState :=
  match s.events.find? (fun e => e.id == eventId) with
  | none => s
  | some ev =>
    let xpGain := eventXpGain ev.xp_reward
    let newXp := s.guild.xp + xpGain
    { guild := { s.guild with xp := newXp },
      events := s.events.map (fun e => if e.id == eventId then { e with status := .completed } else e) }

end GuildEvents

/-- Follows the spec's words (§4.1 applied to the guild in §4.4): the reward
is added to the guild's experience and the guild's level is recomputed as
`floor(experience / 1000) + 1`.  Used only to compare the source's
`completeEvent` against the specified arithmetic. -/
def applyGuildRewardSpec (g : Guild) (reward : Nat) : Guild :=
  let newExperience := g.xp + reward
  { xp := newExperience, level := newExperience / 1000 + 1 }

/-- Reward / achievement record (`rewards` table; interface in
src/unnamed/part_005).  `date_earned` is a nullable timestamp string; the
cosmetic fields (title, description, difficulty) are omitted. -/
structure Reward where
  id : String
  type : QuestType
  requirement : Nat
  earned : Bool
  date_earned : Option String
deriving DecidableEq, Repr

/-- JavaScript truthiness of a nullable string (`null`, `undefined` and the
empty string are falsy). -/
def jsTruthyString (s : Option String) : Bool :=
  match s with
  | none => false
  | some v => !(v = "")

namespace Rewards

/-- The body of the `checkForNewRewards` loop in src/unnamed/part_005
(lines 203–247), for one reward: an already-earned reward
(`if (reward.date_earned) continue`) is skipped; otherwise, when
`questCounts[reward.type] >= reward.requirement`, the reward is marked
`earned: true` with `date_earned` set to the current timestamp. -/
def evalOneReward (questCounts : QuestType → Nat) (ts : String) (r : Reward) : Reward :=
  if jsTruthyString r.date_earned then r
  else if r.requirement ≤ questCounts r.type then
    { r with earned := true, date_earned := some ts }
  else r

/-- Embeds `checkForNewRewards` from src/unnamed/part_005 (lines 191–262), as the
transformation of the reward list it performs when every remote write
succeeds (`ts` is the `new Date().toISOString()` timestamp). -/
def checkForNewRewards (questCounts : QuestType → Nat) (ts : String)
    (rewards : List Reward) : List Reward :=
  rewards.map (evalOneReward questCounts ts)

end Rewards

/-- One entry of `QUEST_DIFFICULTIES` (QuestScreen.tsx lines 53–57). -/
structure DifficultyEntry where
  name : String
  xpLo : Nat
  xpHi : Nat
deriving DecidableEq, Repr

/-- Table `QUEST_DIFFICULTIES` from QuestScreen.tsx: the three tiers with their
`xpRange` bounds. -/
def QUEST_DIFFICULTIES : List DifficultyEntry :=
  [⟨"easy", 50, 150⟩, ⟨"medium", 150, 250⟩, ⟨"hard", 250, 400⟩]

/-- Outcome of the content-generator call inside `generateQuest`
(QuestScreen.tsx lines 206–262):
* `throwsErr` — the fetch, the body decode, the `data.choices[0].message`
  access or `JSON.parse` threw; control reaches the `catch` block;
* `noJson` — the request succeeded but `raw.match(/\x7b[\s\S]*\x7d/)`
  found no JSON object, so the templated default object is used;
* `ok title description` — a JSON object with the two fields was parsed. -/
inductive GenOutcome
  | throwsErr
  | noJson
  | ok (title description : String)
deriving DecidableEq, Repr

namespace QuestScreen

/-- Embeds `generateQuest` from src/screens/QuestScreen.tsx (lines 206–262).  The
random draws are parameters: `t` and `d` are the randomly selected type and
difficulty entry, and `roll` is `Math.floor(Math.random() * (hi - lo))`
(so `roll < hi - lo` whenever `lo < hi`); `id` is the generated uuid.  The
reward in the success path is `roll + lo`; the `catch` fallback quest has the
hard-coded reward `100`. -/
def generateQuest (id : String) (t : QuestType) (d : DifficultyEntry)
    (outcome : GenOutcome) (roll : Nat) : Quest :=
  match outcome with
  | .throwsErr =>
    { id := id
      title := "Fallback " ++ t.name ++ " Quest"
      description := "Complete a " ++ d.name ++ " " ++ t.name ++ " workout."
      type := t
      difficulty := d.name
      xpReward := 100
      completed := false
      accepted := false }
  | .noJson =>
    { id := id
      title := "Epic " ++ t.name ++ " Challenge"
      description := "Complete a " ++ d.name ++ " " ++ t.name ++ " workout."
      type := t
      difficulty := d.name
      xpReward := roll + d.xpLo
      completed := false
      accepted := false }
  | .ok title description =>
    { id := id
      title := title
      description := description
      type := t
      difficulty := d.name
      xpReward := roll + d.xpLo
      completed := false
      accepted := false }

end QuestScreen

/-- Guild-event creation form data (src/unnamed/part_010).  `xp_reward` is
kept as `Int` because the numeric input parses to an arbitrary number before
validation; the date fields are epoch instants. -/
structure EventFormData where
  title : String
  description : String
  reward_description : String
  xp_reward : Int
  start_date : Int
  end_date : Int
  has_goal : Bool
  goal : Option Int
deriving DecidableEq, Repr

/-- The error record `validateForm` builds (`newErrors`); `none` means the
key is absent. -/
structure EventFormErrors where
  title : Option String
  description : Option String
  reward_description : Option String
  xp_reward : Option String
  start_date : Option String
  end_date : Option String
  goal : Option String
deriving DecidableEq, Repr

namespace CreateEvent

/-- Embeds `validateForm` from src/unnamed/part_010 (lines 101–142): builds the
error record and returns `true` iff it is empty (`now` is the `new Date()`
instant). -/
def validateForm (now : Int) (fd : EventFormData) : EventFormErrors × Bool :=
  let titleErr :=
    if fd.title.trim = "" then some "Title is required"
    else if fd.title.length < 3 then some "Title must be at least 3 characters"
    else none
  let descriptionErr :=
    if fd.description.trim = "" then some "Description is required"
    else if fd.description.length < 10 then some "Description must be at least 10 characters"
    else none
  let rewardDescriptionErr :=
    if fd.reward_description.trim = "" then some "Reward description is required"
    else none
  let xpRewardErr :=
    if fd.xp_reward ≤ 0 then some "XP reward must be greater than 0"
    else none
  let startDateErr :=
    if fd.start_date ≤ now then some "Start date must be in the future"
    else none
  let endDateErr :=
    if fd.end_date ≤ fd.start_date then some "End date must be after start date"
    else none
  let goalErr :=
    if fd.has_goal ∧ (fd.goal = none ∨ fd.goal.getD 0 ≤ 0) then
      some "Goal must be a positive number"
    else none
  let errors : EventFormErrors :=
    { title := titleErr
      description := descriptionErr
      reward_description := rewardDescriptionErr
      xp_reward := xpRewardErr
      start_date := startDateErr
      end_date := endDateErr
      goal := goalErr }
  (errors,
    titleErr.isNone && descriptionErr.isNone && rewardDescriptionErr.isNone &&
      xpRewardErr.isNone && startDateErr.isNone && endDateErr.isNone && goalErr.isNone)

end CreateEvent

/-! ## Helper lemmas -/

theorem Character.level_addStat (c : Character) (t : QuestType) :
    (c.addStat t).level = c.level := by
  cases t <;> rfl

theorem Character.xp_addStat (c : Character) (t : QuestType) :
    (c.addStat t).xp = c.xp := by
  cases t <;> rfl

theorem Character.stat_addStat_self (c : Character) (t : QuestType) :
    (c.addStat t).stat t = c.stat t + 1 := by
  cases t <;> rfl

theorem Character.stat_addStat_ne (c : Character) (t u : QuestType) (h : u ≠ t) :
    (c.addStat t).stat u = c.stat u := by
  cases t <;> cases u <;> first | rfl | exact absurd rfl h

/-- Reduction of `completeQuest` when the character is loaded and the quest id
is found in the active list. -/
theorem completeQuest_found (s : QuestScreenState) (qid : String) (c : Character)
    (q : Quest) (hc : s.character = some c)
    (hq : s.quests.find? (fun x => x.id == qid) = some q) :
    QuestScreen.completeQuest s qid =
      { quests := s.quests.filter (fun x => !(x.id == qid))
        completedQuests := s.completedQuests ++ [{ q with completed := true }]
        character := some
          (if (c.xp + (if q.type = getClassSpecialty c.className then
                q.xpReward * 12 / 10 else q.xpReward)) / 1000 + 1 > c.level then
            ({ c with
                xp := c.xp + (if q.type = getClassSpecialty c.className then
                  q.xpReward * 12 / 10 else q.xpReward)
                level := (c.xp + (if q.type = getClassSpecialty c.className then
                  q.xpReward * 12 / 10 else q.xpReward)) / 1000 + 1 }).addStat q.type
          else
            { c with
                xp := c.xp + (if q.type = getClassSpecialty c.className then
                  q.xpReward * 12 / 10 else q.xpReward)
                level := (c.xp + (if q.type = getClassSpecialty c.className then
                  q.xpReward * 12 / 10 else q.xpReward)) / 1000 + 1 }) } := by
  unfold QuestScreen.completeQuest
  rw [hc, hq]

theorem Character.stat_withXpLevel (c : Character) (a b : Nat) (u : QuestType) :
    ({ c with xp := a, level := b } : Character).stat u = c.stat u := by
  cases u <;> rfl

/-- A quest id filtered out of the active list is no longer found. -/
theorem find?_filter_self_none (l : List Quest) (qid : String) :
    (l.filter (fun q => !(q.id == qid))).find? (fun q => q.id == qid) = none := by
  apply List.find?_eq_none.mpr
  intro x hx
  simpa using (List.mem_filter.mp hx).2

/-- The function `completeQuest` is idempotent on the screen state: the completed quest is
removed from the active list, so a second invocation finds nothing and
returns the state unchanged. -/
theorem completeQuest_idem (s : QuestScreenState) (qid : String) :
    QuestScreen.completeQuest (QuestScreen.completeQuest s qid) qid =
      QuestScreen.completeQuest s qid := by
  cases hchar : s.character with
  | none =>
    have h1 : QuestScreen.completeQuest s qid = s := by
      unfold QuestScreen.completeQuest
      rw [hchar]
    rw [h1, h1]
  | some c =>
    cases hfind : s.quests.find? (fun x => x.id == qid) with
    | none =>
      have h1 : QuestScreen.completeQuest s qid = s := by
        unfold QuestScreen.completeQuest
        rw [hchar, hfind]
      rw [h1, h1]
    | some q =>
      rw [completeQuest_found s qid c q hchar hfind]
      unfold QuestScreen.completeQuest
      rw [find?_filter_self_none]

/-- Behavior of `find?` over a map that replaces exactly the entries matching an id,
when a replacement still matches the id. -/
theorem find?_map_replace (l : List GuildEvent) (eid : String) (ev : GuildEvent)
    (h : GuildEvent → GuildEvent)
    (hfind : l.find? (fun e => e.id == eid) = some ev)
    (hid : ∀ e, (e.id == eid) = true → ((h e).id == eid) = true) :
    (l.map (fun e => if e.id == eid then h e else e)).find? (fun e => e.id == eid) =
      some (h ev) := by
  induction l with
  | nil => simp at hfind
  | cons a l ih =>
    rw [List.find?_cons] at hfind
    by_cases ha : (a.id == eid) = true
    · simp only [ha] at hfind
      obtain rfl : a = ev := by simpa using hfind
      simp only [List.map_cons, if_pos ha]
      rw [List.find?_cons]
      simp only [hid a ha]
    · have hb : (a.id == eid) = false := by simpa using ha
      simp only [hb] at hfind
      simp only [List.map_cons, if_neg ha]
      rw [List.find?_cons]
      simp only [hb]
      exact ih hfind

/-- The found event satisfies the search predicate. -/
theorem find?_event_id (l : List GuildEvent) (eid : String) (ev : GuildEvent)
    (hfind : l.find? (fun e => e.id == eid) = some ev) :
    (ev.id == eid) = true :=
  @List.find?_some GuildEvent (fun e => e.id == eid) ev l hfind

/-- Evaluating one reward twice with the same counts is the same as once
(provided the written timestamp is a non-empty string). -/
theorem evalOneReward_idem (counts : QuestType → Nat) (ts : String) (hts : ts ≠ "")
    (r : Reward) :
    Rewards.evalOneReward counts ts (Rewards.evalOneReward counts ts r) =
      Rewards.evalOneReward counts ts r := by
  unfold Rewards.evalOneReward
  by_cases h1 : jsTruthyString r.date_earned = true
  · simp [h1]
  · simp only [h1, Bool.false_eq_true, ite_false, if_neg h1]
    by_cases h2 : r.requirement ≤ counts r.type
    · simp [h2, jsTruthyString, hts]
    · simp [h1, h2]

/-- Reduction of `joinEvent` when the event id is found. -/
theorem joinEvent_found (s : GuildEventsState) (eid : String) (ev : GuildEvent)
    (hev : s.events.find? (fun e => e.id == eid) = some ev) :
    GuildEvents.joinEvent s eid =
      { s with events := s.events.map (fun e => if e.id == eid then
          { ev with participants_count := ev.participants_count + 1,
                    status := if ev.status = .upcoming then EventStatus.active else ev.status }
          else e) } := by
  unfold GuildEvents.joinEvent
  rw [hev]

/-- Reduction of `completeEvent` when the event id is found. -/
theorem completeEvent_found (s : GuildEventsState) (eid : String) (ev : GuildEvent)
    (hev : s.events.find? (fun e => e.id == eid) = some ev) :
    GuildEvents.completeEvent s eid =
      { guild := { s.guild with xp := s.guild.xp + GuildEvents.eventXpGain ev.xp_reward },
        events := s.events.map (fun e => if e.id == eid then
          { e with status := EventStatus.completed } else e) } := by
  unfold GuildEvents.completeEvent
  rw [hev]

/-- Running the reward evaluator twice with the same counts equals running it
once (the written timestamp is a non-empty string, so a newly marked reward
is skipped on the second pass). -/
theorem checkForNewRewards_idem (counts : QuestType → Nat) (ts : String) (hts : ts ≠ "")
    (rewards : List Reward) :
    Rewards.checkForNewRewards counts ts (Rewards.checkForNewRewards counts ts rewards) =
      Rewards.checkForNewRewards counts ts rewards := by
  unfold Rewards.checkForNewRewards
  induction rewards with
  | nil => rfl
  | cons a l ih =>
    simp only [List.map_cons]
    rw [evalOneReward_idem counts ts hts a]
    rw [ih]

/-! ## Claims -/

/-- Sample data: a level-1 Warrior with 950 XP holding one active strength
quest worth 100 XP; completing it grants 120 XP (class bonus) and levels up. -/
def sampleCharacter : Character :=
  ⟨"u1", "Hero", some "Warrior", 1, 950, 0, 0, 0, 0⟩

def sampleQuest : Quest :=
  ⟨"q1", "T", "D", .strength, "easy", 100, false, false⟩

def sampleQuestState : QuestScreenState :=
  ⟨[sampleQuest], [], some sampleCharacter⟩

def sampleCharacterAfter : Character :=
  ⟨"u1", "Hero", some "Warrior", 2, 1070, 1, 0, 0, 0⟩

/-- C1: for every character update the program performs (completing a quest
in QuestScreen, logging a workout in CharacterScreen or the unnamed character
screen), the character value written satisfies
`level = floor(experience / 1000) + 1`. -/
theorem c1_level_invariant_after_updates
    (s : QuestScreenState) (qid : String) (c c' : Character) (q : Quest)
    (sel : Fin 4) (t : QuestType)
    (hc : s.character = some c)
    (hq : s.quests.find? (fun x => x.id == qid) = some q)
    (hc' : (QuestScreen.completeQuest s qid).character = some c') :
    c'.level = c'.xp / 1000 + 1
    ∧ (CharacterScreen.logWorkout c sel t).level =
        (CharacterScreen.logWorkout c sel t).xp / 1000 + 1
    ∧ (UnnamedCharacterScreen.logWorkout c t).level =
        (UnnamedCharacterScreen.logWorkout c t).xp / 1000 + 1 := by
  rw [completeQuest_found s qid c q hc hq] at hc'
  simp only [Option.some.injEq] at hc'
  refine ⟨?_, ?_, ?_⟩
  · generalize (if q.type = getClassSpecialty c.className then
      q.xpReward * 12 / 10 else q.xpReward) = gain at hc'
    rw [← hc']
    split
    · rw [Character.level_addStat, Character.xp_addStat]
    · rfl
  · simp only [CharacterScreen.logWorkout, Character.level_addStat, Character.xp_addStat]
  · simp only [UnnamedCharacterScreen.logWorkout, Character.level_addStat, Character.xp_addStat]

/-- C2 counterexample: the claim says the attribute counter is incremented
if and only if the update raises the level, for every progression event.  In
CharacterScreen's `logWorkout` a fresh level-1 Warrior logging a strength
workout gains 120 XP, stays at level 1, and still has strength incremented
from 0 to 1 — an increment without a level-up. -/
theorem c2_stat_increment_counterexample :
    (CharacterScreen.logWorkout ⟨"u2", "H2", some "Warrior", 1, 0, 0, 0, 0, 0⟩ 0
        .strength).strength =
      (⟨"u2", "H2", some "Warrior", 1, 0, 0, 0, 0, 0⟩ : Character).strength + 1
    ∧ ¬ (CharacterScreen.logWorkout ⟨"u2", "H2", some "Warrior", 1, 0, 0, 0, 0, 0⟩ 0
        .strength).level >
      (⟨"u2", "H2", some "Warrior", 1, 0, 0, 0, 0, 0⟩ : Character).level := by
  decide

/-- C2 amended: on quest completion the attribute counter matching the quest
type is incremented by exactly 1 iff the update raises the level; on a logged
workout (CharacterScreen and the unnamed character screen) the counter
matching the workout type is incremented by exactly 1 on every workout,
regardless of level-up.  In all three paths the other three counters are
unchanged. -/
theorem c2_stat_increment_policy
    (s : QuestScreenState) (qid : String) (c c' : Character) (q : Quest)
    (sel : Fin 4) (t u : QuestType)
    (hc : s.character = some c)
    (hq : s.quests.find? (fun x => x.id == qid) = some q)
    (hc' : (QuestScreen.completeQuest s qid).character = some c') :
    (c'.stat q.type = if c'.level > c.level then c.stat q.type + 1 else c.stat q.type)
    ∧ (u ≠ q.type → c'.stat u = c.stat u)
    ∧ (CharacterScreen.logWorkout c sel t).stat t = c.stat t + 1
    ∧ (u ≠ t → (CharacterScreen.logWorkout c sel t).stat u = c.stat u)
    ∧ (UnnamedCharacterScreen.logWorkout c t).stat t = c.stat t + 1
    ∧ (u ≠ t → (UnnamedCharacterScreen.logWorkout c t).stat u = c.stat u) := by
  rw [completeQuest_found s qid c q hc hq] at hc'
  simp only [Option.some.injEq] at hc'
  generalize (if q.type = getClassSpecialty c.className then
    q.xpReward * 12 / 10 else q.xpReward) = gain at hc'
  refine ⟨?_, ?_, ?_, ?_, ?_, ?_⟩
  · rw [← hc']
    split
    · rename_i h
      rw [Character.level_addStat, Character.stat_addStat_self, Character.stat_withXpLevel,
        if_pos h]
    · rw [Character.stat_withXpLevel]
  · intro hu
    rw [← hc']
    split
    · rw [Character.stat_addStat_ne _ _ _ hu, Character.stat_withXpLevel]
    · rw [Character.stat_withXpLevel]
  · simp only [CharacterScreen.logWorkout, Character.stat_addStat_self,
      Character.stat_withXpLevel]
  · intro hu
    simp only [CharacterScreen.logWorkout]
    rw [Character.stat_addStat_ne _ _ _ hu, Character.stat_withXpLevel]
  · simp only [UnnamedCharacterScreen.logWorkout, Character.stat_addStat_self,
      Character.stat_withXpLevel]
  · intro hu
    simp only [UnnamedCharacterScreen.logWorkout]
    rw [Character.stat_addStat_ne _ _ _ hu, Character.stat_withXpLevel]

/-- Witness for the amended C2 at the sample state. -/
theorem c2_stat_increment_policy_witness :
    ((sampleCharacterAfter.stat .strength =
        if sampleCharacterAfter.level > sampleCharacter.level then
          sampleCharacter.stat .strength + 1
        else sampleCharacter.stat .strength)
    ∧ (QuestType.speed ≠ sampleQuest.type →
        sampleCharacterAfter.stat .speed = sampleCharacter.stat .speed)
    ∧ (CharacterScreen.logWorkout sampleCharacter 0 .magic).stat .magic =
        sampleCharacter.stat .magic + 1
    ∧ (QuestType.speed ≠ QuestType.magic →
        (CharacterScreen.logWorkout sampleCharacter 0 .magic).stat .speed =
          sampleCharacter.stat .speed)
    ∧ (UnnamedCharacterScreen.logWorkout sampleCharacter .magic).stat .magic =
        sampleCharacter.stat .magic + 1
    ∧ (QuestType.speed ≠ QuestType.magic →
        (UnnamedCharacterScreen.logWorkout sampleCharacter .magic).stat .speed =
          sampleCharacter.stat .speed)) :=
  c2_stat_increment_policy sampleQuestState "q1" sampleCharacter sampleCharacterAfter
    sampleQuest 0 .magic .speed rfl (by decide) (by decide)

/-- C3: quest completion is idempotent on the QuestScreen state (the second
invocation finds the quest gone from the active list and changes nothing, so
`character.xp` is unchanged), and a quest with `accepted: false` still grants
its reward exactly once — `completeQuest` never inspects `accepted`, raises
no error, and records the quest as `accepted: false, completed: true`. -/
theorem c3_complete_idempotent_direct_complete
    (s : QuestScreenState) (qid : String) (c : Character) (q : Quest)
    (hc : s.character = some c)
    (hq : s.quests.find? (fun x => x.id == qid) = some q)
    (hacc : q.accepted = false) :
    (∀ s' qid', QuestScreen.completeQuest (QuestScreen.completeQuest s' qid') qid' =
        QuestScreen.completeQuest s' qid')
    ∧ (∃ c', (QuestScreen.completeQuest s qid).character = some c'
        ∧ c'.xp = c.xp + (if q.type = getClassSpecialty c.className then
            q.xpReward * 12 / 10 else q.xpReward))
    ∧ { q with completed := true } ∈ (QuestScreen.completeQuest s qid).completedQuests
    ∧ ({ q with completed := true } : Quest).accepted = false := by
  refine ⟨completeQuest_idem, ?_, ?_, hacc⟩
  · rw [completeQuest_found s qid c q hc hq]
    generalize (if q.type = getClassSpecialty c.className then
      q.xpReward * 12 / 10 else q.xpReward) = gain
    refine ⟨_, rfl, ?_⟩
    split
    · rw [Character.xp_addStat]
    · rfl
  · rw [completeQuest_found s qid c q hc hq]
    exact List.mem_append_right _ (List.mem_singleton.mpr rfl)

/-- Witness for C3 at the sample state. -/
theorem c3_complete_idempotent_direct_complete_witness :
    (∀ s' qid', QuestScreen.completeQuest (QuestScreen.completeQuest s' qid') qid' =
        QuestScreen.completeQuest s' qid')
    ∧ (∃ c', (QuestScreen.completeQuest sampleQuestState "q1").character = some c'
        ∧ c'.xp = sampleCharacter.xp +
            (if sampleQuest.type = getClassSpecialty sampleCharacter.className then
              sampleQuest.xpReward * 12 / 10 else sampleQuest.xpReward))
    ∧ { sampleQuest with completed := true } ∈
        (QuestScreen.completeQuest sampleQuestState "q1").completedQuests
    ∧ ({ sampleQuest with completed := true } : Quest).accepted = false :=
  c3_complete_idempotent_direct_complete sampleQuestState "q1" sampleCharacter
    sampleQuest rfl (by decide) (by decide)

/-- Witness for C1 at the sample state. -/
theorem c1_level_invariant_after_updates_witness :
    (QuestScreen.completeQuest sampleQuestState "q1").character = some sampleCharacterAfter
    ∧ (sampleCharacterAfter.level = sampleCharacterAfter.xp / 1000 + 1
      ∧ (CharacterScreen.logWorkout sampleCharacter 0 .speed).level =
          (CharacterScreen.logWorkout sampleCharacter 0 .speed).xp / 1000 + 1
      ∧ (UnnamedCharacterScreen.logWorkout sampleCharacter .magic).level =
          (UnnamedCharacterScreen.logWorkout sampleCharacter .magic).xp / 1000 + 1) :=
  ⟨by decide,
    c1_level_invariant_after_updates sampleQuestState "q1" sampleCharacter
      sampleCharacterAfter sampleQuest 0 .speed rfl (by decide) (by decide)⟩

/-- C4: for every reward application the experience granted equals
`floor(baseReward * 1.2)` when the event's category equals the character's
class specialty and `baseReward` otherwise.  In QuestScreen the base reward
is `quest.xpReward`; in CharacterScreen the base reward is 100 and the bonus
value is the literal `120 = floor(100 * 1.2)`; the unnamed character screen
has no class-specialty concept and always grants its base reward of 100. -/
theorem c4_class_specialty_bonus
    (s : QuestScreenState) (qid : String) (c c' : Character) (q : Quest)
    (sel : Fin 4) (t : QuestType)
    (hc : s.character = some c)
    (hq : s.quests.find? (fun x => x.id == qid) = some q)
    (hc' : (QuestScreen.completeQuest s qid).character = some c') :
    c'.xp = c.xp + (if q.type = getClassSpecialty c.className then
        q.xpReward * 12 / 10 else q.xpReward)
    ∧ (CharacterScreen.logWorkout c sel t).xp =
        c.xp + (if CharacterScreen.classStatBonus c sel = some t then 100 * 12 / 10 else 100)
    ∧ (UnnamedCharacterScreen.logWorkout c t).xp = c.xp + 100 := by
  rw [completeQuest_found s qid c q hc hq] at hc'
  simp only [Option.some.injEq] at hc'
  refine ⟨?_, ?_, ?_⟩
  · generalize (if q.type = getClassSpecialty c.className then
      q.xpReward * 12 / 10 else q.xpReward) = gain at hc' ⊢
    rw [← hc']
    split
    · rw [Character.xp_addStat]
    · rfl
  · simp only [CharacterScreen.logWorkout, Character.xp_addStat]
  · simp only [UnnamedCharacterScreen.logWorkout, Character.xp_addStat]

/-- Witness for C4 at the sample state. -/
theorem c4_class_specialty_bonus_witness :
    sampleCharacterAfter.xp = sampleCharacter.xp +
        (if sampleQuest.type = getClassSpecialty sampleCharacter.className then
          sampleQuest.xpReward * 12 / 10 else sampleQuest.xpReward)
    ∧ (CharacterScreen.logWorkout sampleCharacter 0 .speed).xp =
        sampleCharacter.xp +
          (if CharacterScreen.classStatBonus sampleCharacter 0 = some .speed then
            100 * 12 / 10 else 100)
    ∧ (UnnamedCharacterScreen.logWorkout sampleCharacter .speed).xp =
        sampleCharacter.xp + 100 :=
  c4_class_specialty_bonus sampleQuestState "q1" sampleCharacter sampleCharacterAfter
    sampleQuest 0 .speed rfl (by decide) (by decide)

/-- C5 counterexample: completing a guild event only adds the reward to
`guilds.xp` and never recomputes the level, so the claimed "identical
arithmetic" fails.  A level-1 guild with 950 XP completes an event worth 100
XP: the stored level stays 1 while `floor(1050 / 1000) + 1 = 2`, and the
result differs from the spec's arithmetic. -/
theorem c5_guild_leveling_counterexample :
    (GuildEvents.completeEvent ⟨⟨950, 1⟩, [⟨"e1", .active, 0, some 100⟩]⟩ "e1").guild.xp = 1050
    ∧ (GuildEvents.completeEvent ⟨⟨950, 1⟩, [⟨"e1", .active, 0, some 100⟩]⟩ "e1").guild.level = 1
    ∧ (GuildEvents.completeEvent ⟨⟨950, 1⟩, [⟨"e1", .active, 0, some 100⟩]⟩ "e1").guild.level ≠
        (GuildEvents.completeEvent ⟨⟨950, 1⟩, [⟨"e1", .active, 0, some 100⟩]⟩ "e1").guild.xp
          / 1000 + 1
    ∧ (GuildEvents.completeEvent ⟨⟨950, 1⟩, [⟨"e1", .active, 0, some 100⟩]⟩ "e1").guild ≠
        applyGuildRewardSpec ⟨950, 1⟩ 100 := by
  decide

/-- C5 amended: completing a guild event adds the event's XP reward
(defaulting to 100 when the stored reward is falsy) to the guild's
experience, with no per-member attribute side effects, but the guild's level
is not recomputed: the stored `level` field is left unchanged, unlike the
character leveling function which recomputes it. -/
theorem c5_guild_event_reward_amended
    (s : GuildEventsState) (eid : String) (ev : GuildEvent)
    (hev : s.events.find? (fun e => e.id == eid) = some ev) :
    (GuildEvents.completeEvent s eid).guild.xp =
        s.guild.xp + GuildEvents.eventXpGain ev.xp_reward
    ∧ (GuildEvents.completeEvent s eid).guild.level = s.guild.level
    ∧ (applyGuildRewardSpec s.guild (GuildEvents.eventXpGain ev.xp_reward)).level =
        (s.guild.xp + GuildEvents.eventXpGain ev.xp_reward) / 1000 + 1 := by
  unfold GuildEvents.completeEvent
  rw [hev]
  exact ⟨rfl, rfl, rfl⟩

/-- Witness for the amended C5 at a concrete guild state. -/
theorem c5_guild_event_reward_amended_witness :
    (GuildEvents.completeEvent ⟨⟨950, 1⟩, [⟨"e2", .active, 3, some 100⟩]⟩ "e2").guild.xp =
        950 + GuildEvents.eventXpGain (some 100)
    ∧ (GuildEvents.completeEvent ⟨⟨950, 1⟩, [⟨"e2", .active, 3, some 100⟩]⟩ "e2").guild.level = 1
    ∧ (applyGuildRewardSpec ⟨950, 1⟩ (GuildEvents.eventXpGain (some 100))).level =
        (950 + GuildEvents.eventXpGain (some 100)) / 1000 + 1 :=
  c5_guild_event_reward_amended ⟨⟨950, 1⟩, [⟨"e2", .active, 3, some 100⟩]⟩ "e2"
    ⟨"e2", .active, 3, some 100⟩ (by decide)

/-- C7 counterexample: the `catch` fallback of `generateQuest` hard-codes
`xpReward = 100`, which lies outside the hard tier's 250–400 range. -/
theorem c7_reward_range_counterexample :
    (⟨"hard", 250, 400⟩ : DifficultyEntry) ∈ QUEST_DIFFICULTIES
    ∧ (QuestScreen.generateQuest "q" .strength ⟨"hard", 250, 400⟩ .throwsErr 0).xpReward = 100
    ∧ ¬ 250 ≤ (QuestScreen.generateQuest "q" .strength ⟨"hard", 250, 400⟩
        .throwsErr 0).xpReward := by
  decide

/-- C7 amended: whenever the generator call does not throw, the produced
quest's `xpReward` lies in the half-open range `[lo, hi)` of its difficulty
tier (`roll = floor(random * (hi - lo)) < hi - lo`), and the three tiers'
achievable ranges `[50,150)`, `[150,250)`, `[250,400)` are pairwise
disjoint; on the throwing path the fallback quest's reward is always 100,
regardless of tier. -/
theorem c7_reward_range_amended
    (id : String) (t : QuestType) (d : DifficultyEntry) (outcome : GenOutcome) (roll : Nat)
    (_hd : d ∈ QUEST_DIFFICULTIES) (hroll : roll < d.xpHi - d.xpLo) :
    (outcome ≠ .throwsErr →
      d.xpLo ≤ (QuestScreen.generateQuest id t d outcome roll).xpReward
      ∧ (QuestScreen.generateQuest id t d outcome roll).xpReward < d.xpHi)
    ∧ (outcome = .throwsErr →
        (QuestScreen.generateQuest id t d outcome roll).xpReward = 100)
    ∧ (∀ d1 ∈ QUEST_DIFFICULTIES, ∀ d2 ∈ QUEST_DIFFICULTIES, d1 ≠ d2 →
        d1.xpHi ≤ d2.xpLo ∨ d2.xpHi ≤ d1.xpLo) := by
  refine ⟨?_, ?_, by decide⟩
  · intro hout
    cases outcome with
    | throwsErr => exact absurd rfl hout
    | noJson =>
      simp only [QuestScreen.generateQuest]
      omega
    | ok a b =>
      simp only [QuestScreen.generateQuest]
      omega
  · intro hout
    subst hout
    rfl

/-- Witness for the amended C7: a medium-tier quest with roll 30. -/
theorem c7_reward_range_amended_witness :
    ((GenOutcome.ok "T" "D" ≠ GenOutcome.throwsErr →
      150 ≤ (QuestScreen.generateQuest "q" .magic ⟨"medium", 150, 250⟩
          (.ok "T" "D") 30).xpReward
      ∧ (QuestScreen.generateQuest "q" .magic ⟨"medium", 150, 250⟩
          (.ok "T" "D") 30).xpReward < 250)
    ∧ (GenOutcome.ok "T" "D" = GenOutcome.throwsErr →
        (QuestScreen.generateQuest "q" .magic ⟨"medium", 150, 250⟩
          (.ok "T" "D") 30).xpReward = 100)
    ∧ (∀ d1 ∈ QUEST_DIFFICULTIES, ∀ d2 ∈ QUEST_DIFFICULTIES, d1 ≠ d2 →
        d1.xpHi ≤ d2.xpLo ∨ d2.xpHi ≤ d1.xpLo)) :=
  c7_reward_range_amended "q" .magic ⟨"medium", 150, 250⟩ (.ok "T" "D") 30
    (by decide) (by decide)

/-- C9: quest generation never fails on malformed or missing generator
output.  `generateQuest` is a total function in every outcome; when no JSON
object can be extracted it uses the deterministic template
`"Epic <type> Challenge"`, and when the request or parse throws, the `catch`
block returns the deterministic `"Fallback <type> Quest"` quest — in both
cases the description is the templated workout sentence. -/
theorem c9_generation_fallback (id : String) (t : QuestType) (d : DifficultyEntry)
    (roll : Nat) :
    (QuestScreen.generateQuest id t d .noJson roll).title =
        "Epic " ++ t.name ++ " Challenge"
    ∧ (QuestScreen.generateQuest id t d .noJson roll).description =
        "Complete a " ++ d.name ++ " " ++ t.name ++ " workout."
    ∧ (QuestScreen.generateQuest id t d .throwsErr roll).title =
        "Fallback " ++ t.name ++ " Quest"
    ∧ (QuestScreen.generateQuest id t d .throwsErr roll).description =
        "Complete a " ++ d.name ++ " " ++ t.name ++ " workout." :=
  ⟨rfl, rfl, rfl, rfl⟩

/-- C6: the reward evaluator marks a not-yet-earned reward as newly earned
iff the completed-quest count for its category reaches its required count;
an already-earned reward (truthy `date_earned`) is returned unchanged and
never re-earned; evaluation is monotone in the counts and idempotent. -/
theorem c6_reward_evaluator
    (counts counts' : QuestType → Nat) (ts : String) (rewards : List Reward)
    (hts : ts ≠ "") (hmono : ∀ ty, counts ty ≤ counts' ty)
    (i : Nat) (r o o' : Reward)
    (hr : rewards[i]? = some r)
    (ho : (Rewards.checkForNewRewards counts ts rewards)[i]? = some o)
    (ho' : (Rewards.checkForNewRewards counts' ts rewards)[i]? = some o') :
    (jsTruthyString r.date_earned = true → o = r)
    ∧ (jsTruthyString r.date_earned = false →
        (jsTruthyString o.date_earned = true ↔ r.requirement ≤ counts r.type))
    ∧ (jsTruthyString o.date_earned = true → jsTruthyString o'.date_earned = true)
    ∧ Rewards.checkForNewRewards counts ts (Rewards.checkForNewRewards counts ts rewards) =
        Rewards.checkForNewRewards counts ts rewards := by
  unfold Rewards.checkForNewRewards at ho ho'
  rw [List.getElem?_map, hr] at ho ho'
  simp only [Option.map_some', Option.some.injEq] at ho ho'
  subst ho ho'
  refine ⟨?_, ?_, ?_, checkForNewRewards_idem counts ts hts rewards⟩
  · intro h
    unfold Rewards.evalOneReward
    rw [if_pos h]
  · intro h
    have hn : ¬ jsTruthyString r.date_earned = true := by simp [h]
    unfold Rewards.evalOneReward
    rw [if_neg hn]
    by_cases hreq : r.requirement ≤ counts r.type
    · rw [if_pos hreq]
      exact ⟨fun _ => hreq, fun _ => by simp [jsTruthyString, hts]⟩
    · rw [if_neg hreq]
      exact ⟨fun hcontr => absurd hcontr hn, fun hcontr => absurd hcontr hreq⟩
  · intro htrue
    by_cases h1 : jsTruthyString r.date_earned = true
    · unfold Rewards.evalOneReward
      rw [if_pos h1]
      exact h1
    · have hreq : r.requirement ≤ counts r.type := by
        by_contra hreq
        unfold Rewards.evalOneReward at htrue
        rw [if_neg h1, if_neg hreq] at htrue
        exact absurd htrue h1
      have hreq' : r.requirement ≤ counts' r.type := le_trans hreq (hmono r.type)
      unfold Rewards.evalOneReward
      rw [if_neg h1, if_pos hreq']
      simp [jsTruthyString, hts]

/-- Witness for C6: one bronze strength reward requiring 3 quests, counts at
3 for every category — the reward is newly earned. -/
theorem c6_reward_evaluator_witness :
    ((jsTruthyString (none : Option String) = true →
        (⟨"r1", .strength, 3, true, some "2024-01-01"⟩ : Reward) =
          ⟨"r1", .strength, 3, false, none⟩)
    ∧ (jsTruthyString (none : Option String) = false →
        (jsTruthyString (some "2024-01-01") = true ↔
          3 ≤ (fun _ : QuestType => 3) QuestType.strength))
    ∧ (jsTruthyString (some "2024-01-01") = true →
        jsTruthyString (some "2024-01-01") = true)
    ∧ Rewards.checkForNewRewards (fun _ => 3) "2024-01-01"
        (Rewards.checkForNewRewards (fun _ => 3) "2024-01-01"
          [⟨"r1", .strength, 3, false, none⟩]) =
      Rewards.checkForNewRewards (fun _ => 3) "2024-01-01"
        [⟨"r1", .strength, 3, false, none⟩]) := by
  have h := c6_reward_evaluator (fun _ => 3) (fun _ => 3) "2024-01-01"
    [⟨"r1", .strength, 3, false, none⟩] (by decide) (fun ty => le_refl 3) 0
    ⟨"r1", .strength, 3, false, none⟩ ⟨"r1", .strength, 3, true, some "2024-01-01"⟩
    ⟨"r1", .strength, 3, true, some "2024-01-01"⟩ rfl (by decide) (by decide)
  exact h

/-- C8 counterexample: `completeEvent` has no guard on the event's status,
so completing the same event twice grants the guild XP twice: an event worth
50 XP completed twice leaves the guild at 100 XP, not 50. -/
theorem c8_double_completion_counterexample :
    (GuildEvents.completeEvent
        (GuildEvents.completeEvent ⟨⟨0, 1⟩, [⟨"e1", .active, 0, some 50⟩]⟩ "e1")
        "e1").guild.xp = 100
    ∧ (GuildEvents.completeEvent
        (GuildEvents.completeEvent ⟨⟨0, 1⟩, [⟨"e1", .active, 0, some 50⟩]⟩ "e1")
        "e1").guild.xp ≠
      (GuildEvents.completeEvent ⟨⟨0, 1⟩, [⟨"e1", .active, 0, some 50⟩]⟩ "e1").guild.xp := by
  decide

/-- C8 amended: joining replaces the event with a copy whose participant
count is incremented and whose status becomes `active` exactly when it was
`upcoming` (otherwise the status is preserved), and joining grants no XP;
the explicit complete action sets the status to `completed` and adds the
event's XP gain to the guild — but it does so on every invocation, with no
once-only guard, so a second completion grants the XP again. -/
theorem c8_event_lifecycle_amended
    (s : GuildEventsState) (eid : String) (ev : GuildEvent)
    (hev : s.events.find? (fun e => e.id == eid) = some ev) :
    (GuildEvents.joinEvent s eid).events.find? (fun e => e.id == eid) =
        some { ev with participants_count := ev.participants_count + 1,
                       status := if ev.status = .upcoming then EventStatus.active
                         else ev.status }
    ∧ (GuildEvents.joinEvent s eid).guild = s.guild
    ∧ (GuildEvents.completeEvent s eid).events.find? (fun e => e.id == eid) =
        some { ev with status := EventStatus.completed }
    ∧ (GuildEvents.completeEvent s eid).guild.xp =
        s.guild.xp + GuildEvents.eventXpGain ev.xp_reward
    ∧ (GuildEvents.completeEvent (GuildEvents.completeEvent s eid) eid).guild.xp =
        s.guild.xp + 2 * GuildEvents.eventXpGain ev.xp_reward := by
  have hevid := find?_event_id s.events eid ev hev
  refine ⟨?_, ?_, ?_, ?_, ?_⟩
  · rw [joinEvent_found s eid ev hev]
    exact find?_map_replace s.events eid ev _ hev (fun e _ => hevid)
  · rw [joinEvent_found s eid ev hev]
  · rw [completeEvent_found s eid ev hev]
    exact find?_map_replace s.events eid ev _ hev (fun e he => he)
  · rw [completeEvent_found s eid ev hev]
  · rw [completeEvent_found s eid ev hev]
    rw [completeEvent_found _ eid _
      (find?_map_replace s.events eid ev
        (fun e => { e with status := EventStatus.completed }) hev (fun e he => he))]
    show s.guild.xp + GuildEvents.eventXpGain ev.xp_reward +
        GuildEvents.eventXpGain ev.xp_reward =
      s.guild.xp + 2 * GuildEvents.eventXpGain ev.xp_reward
    omega

/-- Witness for the amended C8 at a concrete state: an upcoming event worth
50 XP in a guild with 0 XP. -/
theorem c8_event_lifecycle_amended_witness :
    (GuildEvents.joinEvent ⟨⟨0, 1⟩, [⟨"e3", .upcoming, 0, some 50⟩]⟩ "e3").events.find?
        (fun e => e.id == "e3") =
      some { (⟨"e3", .upcoming, 0, some 50⟩ : GuildEvent) with
              participants_count := 1,
              status := if (⟨"e3", .upcoming, 0, some 50⟩ : GuildEvent).status = .upcoming
                then EventStatus.active else (⟨"e3", .upcoming, 0, some 50⟩ : GuildEvent).status }
    ∧ (GuildEvents.joinEvent ⟨⟨0, 1⟩, [⟨"e3", .upcoming, 0, some 50⟩]⟩ "e3").guild =
        (⟨0, 1⟩ : Guild)
    ∧ (GuildEvents.completeEvent ⟨⟨0, 1⟩, [⟨"e3", .upcoming, 0, some 50⟩]⟩ "e3").events.find?
        (fun e => e.id == "e3") =
      some { (⟨"e3", .upcoming, 0, some 50⟩ : GuildEvent) with status := EventStatus.completed }
    ∧ (GuildEvents.completeEvent ⟨⟨0, 1⟩, [⟨"e3", .upcoming, 0, some 50⟩]⟩ "e3").guild.xp =
        0 + GuildEvents.eventXpGain (some 50)
    ∧ (GuildEvents.completeEvent
        (GuildEvents.completeEvent ⟨⟨0, 1⟩, [⟨"e3", .upcoming, 0, some 50⟩]⟩ "e3")
        "e3").guild.xp = 0 + 2 * GuildEvents.eventXpGain (some 50) :=
  c8_event_lifecycle_amended ⟨⟨0, 1⟩, [⟨"e3", .upcoming, 0, some 50⟩]⟩ "e3"
    ⟨"e3", .upcoming, 0, some 50⟩ (by decide)

/-- C10: completing a guild event whose `xp_reward` is null, missing or zero
grants the guild exactly the default of 100 XP, even though the event
creation form's `validateForm` rejects any `xp_reward <= 0`. -/
theorem c10_falsy_xp_reward_default
    (s : GuildEventsState) (eid : String) (ev : GuildEvent) (now : Int)
    (fd : EventFormData)
    (hev : s.events.find? (fun e => e.id == eid) = some ev)
    (hfalsy : ev.xp_reward = none ∨ ev.xp_reward = some 0)
    (hxp : fd.xp_reward ≤ 0) :
    (GuildEvents.completeEvent s eid).guild.xp = s.guild.xp + 100
    ∧ (CreateEvent.validateForm now fd).2 = false
    ∧ (CreateEvent.validateForm now fd).1.xp_reward =
        some "XP reward must be greater than 0" := by
  refine ⟨?_, ?_, ?_⟩
  · rw [completeEvent_found s eid ev hev]
    rcases hfalsy with h | h <;> simp [GuildEvents.eventXpGain, h]
  · unfold CreateEvent.validateForm
    simp [hxp]
  · unfold CreateEvent.validateForm
    simp [hxp]

/-- Witness for C10: an event with a null reward and a form with
`xp_reward = 0`. -/
theorem c10_falsy_xp_reward_default_witness :
    (GuildEvents.completeEvent ⟨⟨200, 1⟩, [⟨"e4", .active, 1, none⟩]⟩ "e4").guild.xp =
        200 + 100
    ∧ (CreateEvent.validateForm 0
        ⟨"Big Run", "Run a big distance together", "Bragging rights", 0, 10, 20,
          false, none⟩).2 = false
    ∧ (CreateEvent.validateForm 0
        ⟨"Big Run", "Run a big distance together", "Bragging rights", 0, 10, 20,
          false, none⟩).1.xp_reward = some "XP reward must be greater than 0" :=
  c10_falsy_xp_reward_default ⟨⟨200, 1⟩, [⟨"e4", .active, 1, none⟩]⟩ "e4"
    ⟨"e4", .active, 1, none⟩ 0
    ⟨"Big Run", "Run a big distance together", "Bragging rights", 0, 10, 20, false, none⟩
    (by decide) (Or.inl rfl) (by decide)

end FitRealm
